import Mathlib

/-!
Verification of the flowy session-state and variable-resolution engine.

The definitions below are shallow embeddings of the Python sources:
  - `src/state_manager.py`   (SessionState, StateManager)
  - `src/save_file_manager.py` (SaveFileData, SaveFileManager)
  - `src/interactive_shell.py` (`_determine_variable_source`)
Python dicts are modelled as association lists with Python dict semantics
(`dictInsert` replaces in place, `dictUpdate` folds `dict.update`).
-/

namespace Flowy

/-- Python dict with string keys, modelled as an association list in
insertion order (keys are unique in every dict the program builds). -/
abbrev Smap (α : Type) : Type := List (String × α)

/-- `m[k]` / `m.get(k)`: the first binding of `k`. -/
def dictLookup {α : Type} : Smap α → String → Option α
  | [], _ => none
  | (k, v) :: rest, key => if k = key then some v else dictLookup rest key

/-- Python `key in m`. -/
def dictMem {α : Type} (m : Smap α) (key : String) : Bool :=
  (dictLookup m key).isSome

/-- Python `m[key] = v`: replace in place when present, append when absent. -/
def dictInsert {α : Type} (m : Smap α) (key : String) (v : α) : Smap α :=
  if dictMem m key then
    m.map (fun kv => if kv.1 = key then (key, v) else kv)
  else
    m ++ [(key, v)]

/-- Python `m₁.update(m₂)` (entries of `m₂` written left to right on top of `m₁`). -/
def dictUpdate {α : Type} (m₁ m₂ : Smap α) : Smap α :=
  m₂.foldl (fun acc kv => dictInsert acc kv.1 kv.2) m₁

/-- Keys of a dict, in order. -/
def dictKeys {α : Type} (m : Smap α) : List String :=
  m.map Prod.fst

/-- A value as held in session variables and save files.  Floats carry their
source literal (no float arithmetic happens anywhere in the modelled code). -/
inductive Value : Type where
  | vBool : Bool → Value
  | vInt : Int → Value
  | vFloat : String → Value
  | vStr : String → Value
  deriving DecidableEq, Repr

-- Basic dictionary lemmas --------------------------------------------------

theorem dictLookup_eq_none_of_not_mem {α : Type} (m : Smap α) (key : String)
    (h : key ∉ dictKeys m) : dictLookup m key = none := by
  induction m with
  | nil => rfl
  | cons kv rest ih =>
    simp only [dictKeys, List.map_cons, List.mem_cons, not_or] at h
    simp [dictLookup, Ne.symm h.1, ih (by simpa [dictKeys] using h.2)]

theorem dictLookup_map_overwrite {α : Type} (m : Smap α) (k key : String) (v : α) :
    dictLookup (m.map (fun kv => if kv.1 = k then (k, v) else kv)) key
      = if key = k then (if dictMem m k then some v else none)
        else dictLookup m key := by
  induction m with
  | nil => by_cases hkey : key = k <;> simp [dictLookup, dictMem, hkey]
  | cons kv rest ih =>
    obtain ⟨k₀, v₀⟩ := kv
    simp only [List.map_cons]
    by_cases hk : k₀ = k
    · subst hk
      rw [if_pos rfl]
      by_cases hkey : key = k₀
      · subst hkey
        simp [dictLookup, dictMem]
      · have hk1 : ¬ k₀ = key := fun h => hkey h.symm
        simp only [dictLookup, if_neg hk1, ih, if_neg hkey]
    · rw [if_neg hk]
      by_cases hkv : k₀ = key
      · have hkey : ¬ key = k := fun h => hk (hkv.trans h)
        simp only [dictLookup, if_pos hkv, if_neg hkey]
      · simp only [dictLookup, if_neg hkv, ih]
        by_cases hkey : key = k
        · simp only [if_pos hkey, dictMem, dictLookup, if_neg hk]
        · simp only [if_neg hkey]

theorem dictLookup_append_single {α : Type} (m : Smap α) (k key : String) (v : α)
    (hnone : dictLookup m k = none) :
    dictLookup (m ++ [(k, v)]) key = if key = k then some v else dictLookup m key := by
  induction m with
  | nil =>
    by_cases hkey : key = k
    · subst hkey; simp [dictLookup]
    · simp only [List.nil_append, dictLookup,
        if_neg (fun h : k = key => hkey h.symm), if_neg hkey]
  | cons kv rest ih =>
    by_cases h2 : kv.1 = k
    · simp [dictLookup, h2] at hnone
    · simp only [dictLookup, if_neg h2] at hnone
      by_cases h3 : kv.1 = key
      · have hkey : ¬ key = k := fun h => h2 (h3.trans h)
        simp [dictLookup, h3, hkey]
      · simp [dictLookup, h3, ih hnone]

theorem dictLookup_insert {α : Type} (m : Smap α) (k key : String) (v : α) :
    dictLookup (dictInsert m k v) key = if key = k then some v else dictLookup m key := by
  unfold dictInsert
  by_cases hmem : dictMem m k
  · simp [hmem, dictLookup_map_overwrite]
  · have hnone : dictLookup m k = none := by
      cases h : dictLookup m k with
      | none => rfl
      | some w => exact absurd (by simp [dictMem, h]) hmem
    simp [hmem, dictLookup_append_single m k key v hnone]

theorem dictLookup_update_of_not_mem {α : Type} (m₁ m₂ : Smap α) (key : String)
    (h : key ∉ dictKeys m₂) :
    dictLookup (dictUpdate m₁ m₂) key = dictLookup m₁ key := by
  induction m₂ generalizing m₁ with
  | nil => rfl
  | cons kv rest ih =>
    simp only [dictKeys, List.map_cons, List.mem_cons, not_or] at h
    have step : dictUpdate m₁ (kv :: rest) = dictUpdate (dictInsert m₁ kv.1 kv.2) rest := rfl
    rw [step, ih _ (by simpa [dictKeys] using h.2), dictLookup_insert,
      if_neg h.1]

theorem dictLookup_update {α : Type} (m₁ m₂ : Smap α) (key : String)
    (hnd : (dictKeys m₂).Nodup) :
    dictLookup (dictUpdate m₁ m₂) key
      = (dictLookup m₂ key).or (dictLookup m₁ key) := by
  induction m₂ generalizing m₁ with
  | nil => rfl
  | cons kv rest ih =>
    simp only [dictKeys, List.map_cons, List.nodup_cons] at hnd
    have step : dictUpdate m₁ (kv :: rest) = dictUpdate (dictInsert m₁ kv.1 kv.2) rest := rfl
    rw [step, ih _ hnd.2, dictLookup_insert]
    by_cases hkey : kv.1 = key
    · have hrest : dictLookup rest key = none :=
        dictLookup_eq_none_of_not_mem rest key (by simpa [dictKeys, hkey] using hnd.1)
      rw [hrest, if_pos hkey.symm]
      simp [dictLookup, hkey, Option.or]
    · rw [if_neg (fun h => hkey (Eq.symm h))]
      simp [dictLookup, hkey]

-- ===========================================================================
-- src/state_manager.py
-- ===========================================================================

/-- `SessionState` dataclass (src/state_manager.py): one immutable snapshot of
template selection, variable map and ISO-8601 timestamp string. -/
structure SessionState where
  template_path : Option String
  vars : Smap Value
  timestamp : String
  deriving DecidableEq, Repr

/-- The `SessionState` constructor including `__post_init__`: an empty
timestamp is replaced by the current time, which the embedding threads in
explicitly as `now` (`datetime.now().isoformat()` is never the empty string). -/
def mkSessionState (template_path : Option String) (vars : Smap Value)
    (timestamp now : String) : SessionState :=
  { template_path := template_path, vars := vars,
    timestamp := if timestamp = "" then now else timestamp }

/-- The JSON document written by `StateManager.save_state` and read by
`StateManager._load_state`.  History entries and the toggle state are each
serialized as `{template, variables, timestamp}` dicts, which are in exact
correspondence with `SessionState` (`to_dict` / `from_dict`), so the
embedding stores them as `SessionState` values directly. -/
structure StateDoc where
  current_template : Option String
  vars : Smap Value
  timestamp : String
  history : List SessionState
  revert_toggle_state : Option SessionState
  deriving DecidableEq, Repr

/-- In-memory fields of `StateManager`, plus `disk`: the current content of
the persisted state file (`none` when no file exists yet). -/
structure StateMgr where
  current_state : Option SessionState := none
  history : List SessionState := []
  revert_toggle_state : Option SessionState := none
  disk : Option StateDoc := none
  deriving DecidableEq, Repr

/-- `StateManager.MAX_HISTORY_SIZE`. -/
def MAX_HISTORY_SIZE : Nat := 50

/-- The document `StateManager.save_state` serializes from the live fields. -/
def serializeDoc (m : StateMgr) : StateDoc :=
  { current_template :=
      match m.current_state with
      | some c => c.template_path
      | none => none
    vars :=
      match m.current_state with
      | some c => c.vars
      | none => []
    timestamp :=
      match m.current_state with
      | some c => c.timestamp
      | none => ""
    history := m.history
    revert_toggle_state := m.revert_toggle_state }

/-- The successful tail of `StateManager.save_state`: atomic temp-write plus
rename, leaving the serialized document on disk. -/
def doSave (m : StateMgr) : StateMgr :=
  { m with disk := some (serializeDoc m) }

/-- `StateManager._load_state` applied to an existing, well-formed state file
`d`.  The current state is only deserialized when `current_template` is not
null or the variables dict is truthy (non-empty); `now` feeds the
`__post_init__` regeneration of empty timestamps. -/
def loadStateDoc (d : StateDoc) (now : String) : StateMgr :=
  { current_state :=
      if d.current_template.isSome ∨ d.vars ≠ [] then
        some (mkSessionState d.current_template d.vars d.timestamp now)
      else
        none
    history := d.history.map (fun s => mkSessionState s.template_path s.vars s.timestamp now)
    revert_toggle_state :=
      d.revert_toggle_state.map (fun s => mkSessionState s.template_path s.vars s.timestamp now)
    disk := some d }

/-- `StateManager._push_to_history`: append the current state (when present)
and cap the history at `MAX_HISTORY_SIZE` by dropping the oldest entries. -/
def pushToHistory (m : StateMgr) : StateMgr :=
  match m.current_state with
  | none => m
  | some c =>
    let h := m.history ++ [c]
    { m with history := if h.length > MAX_HISTORY_SIZE then h.drop (h.length - MAX_HISTORY_SIZE) else h }

/-- A Python `ValueError`: raised by `SessionState.from_dict` when a required
key is missing, and by `int(...)` / `float(...)` inside
`SaveFileData._parse_values`. -/
inductive PyExn : Type where
  | valueError : PyExn
  deriving DecidableEq, Repr

/-- `SessionState.copy_with` for the call shapes `StateManager` uses (a
single `template_path=...` or `variables=...` change, never an explicit
timestamp): `to_dict` yields the keys `template`/`variables`/`timestamp`;
`data.update(changes)` adds the changed key (`template_path` is a key
`from_dict` never reads — it reads `template`); then, because `timestamp` is
not among the changes, the `timestamp` key is deleted; and `from_dict`
raises `ValueError` for the missing required key.  Every such call
therefore raises. -/
def copy_with_template_path (s : SessionState) (template_path : String) :
    Except PyExn SessionState :=
  .error .valueError

/-- `StateManager.set_template`: always push the previous state to history
and clear the toggle; with no current state, create a fresh `SessionState`
and persist; with a current state, `copy_with(template_path=...)` raises
`ValueError` (see `copy_with_template_path`), which propagates out of
`set_template` — the history push and toggle clear stay in memory, the
current state is unchanged, and nothing is saved.  The second component is
the escaped exception, if any. -/
def set_template (m : StateMgr) (template_path : String) (now : String) :
    StateMgr × Option PyExn :=
  let m₁ := pushToHistory m
  let m₂ := { m₁ with revert_toggle_state := none }
  match m₂.current_state with
  | none =>
    (doSave { m₂ with current_state := some (mkSessionState (some template_path) [] "" now) },
     none)
  | some c =>
    match copy_with_template_path c template_path with
    | .error e => (m₂, some e)
    | .ok s => (doSave { m₂ with current_state := some s }, none)

/-- `StateManager.revert`: toggle path first, then duplicate-collapsing
history revert; returns the new manager and the boolean result. -/
def revert (m : StateMgr) : StateMgr × Bool :=
  match m.current_state with
  | none => (m, false)
  | some cur =>
    match m.revert_toggle_state with
    | some tog =>
      (doSave { m with current_state := some tog, revert_toggle_state := none }, true)
    | none =>
      if m.history = [] then (m, false)
      else
        let previous_template : Option String :=
          match m.history.getLast? with
          | some s => s.template_path
          | none => none
        if previous_template = cur.template_path then (m, false)
        else
          let consecutive_count :=
            (m.history.reverse.takeWhile (fun s => s.template_path == previous_template)).length
          let hist₁ :=
            if consecutive_count > 1 then m.history.take (m.history.length - consecutive_count)
            else m.history
          let m₁ := { m with history := hist₁ }
          match hist₁.reverse.find? (fun s => s.template_path != cur.template_path) with
          | none => (m₁, false)
          | some target =>
            (doSave { m₁ with
                current_state := some target
                revert_toggle_state := some cur
                history := hist₁.erase target }, true)

-- ===========================================================================
-- src/save_file_manager.py
-- ===========================================================================

/-- ASCII whitespace as stripped by Python `str.strip()`. -/
def isPyWhitespace (c : Char) : Bool :=
  c = ' ' ∨ c = '\t' ∨ c = '\n' ∨ c = '\r' ∨ c = '\x0b' ∨ c = '\x0c'

/-- Python `str.strip()` on the character list. -/
def pyStripChars (cs : List Char) : List Char :=
  ((cs.dropWhile isPyWhitespace).reverse.dropWhile isPyWhitespace).reverse

/-- Python `str.strip()`. -/
def pyStrip (s : String) : String := String.mk (pyStripChars s.toList)

/-- Python `str.lower()` (ASCII model). -/
def pyLower (s : String) : String := String.mk (s.toList.map Char.toLower)

/-- Left-to-right non-overlapping replacement, fuelled by the input length
(each step consumes at least one character for a non-empty pattern). -/
def replaceAllAux (pat rep : List Char) : Nat → List Char → List Char
  | 0, l => l
  | _ + 1, [] => []
  | fuel + 1, c :: rest =>
    if pat.isPrefixOf (c :: rest) then rep ++ replaceAllAux pat rep fuel ((c :: rest).drop pat.length)
    else c :: replaceAllAux pat rep fuel rest

/-- Python `s.replace(pat, rep)` for a non-empty pattern. -/
def pyReplace (s pat rep : String) : String :=
  String.mk (replaceAllAux pat.toList rep.toList s.toList.length s.toList)

/-- `_normalize_template_path` (src/save_file_manager.py): strip a trailing
`.template` extension (`str.endswith` plus slicing off the last 9 chars). -/
def normalize_template_path (template_path : String) : String :=
  if ".template".toList.isSuffixOf template_path.toList then
    String.mk (template_path.toList.take (template_path.toList.length - 9))
  else template_path

/-- `SaveFileData` dataclass (src/save_file_manager.py).  The Python field
names `globals_variables`, `general_variables`, `template_sections` are kept
(the trailing `_variables` parts shortened only where Lean reserves the word). -/
structure SaveFileData where
  path : String := ""
  globals_variables : Smap Value := []
  general_variables : Smap Value := []
  template_sections : Smap (Smap Value) := []
  deriving DecidableEq, Repr

/-- `SaveFileData.get_variables_for_template`: globals overlaid by general
overlaid by the template section, the section looked up under the normalized
key first, then (elif) under the raw key. -/
def get_variables_for_template (d : SaveFileData) (template_path : String) : Smap Value :=
  let normalized_path := normalize_template_path template_path
  let result := dictUpdate d.globals_variables d.general_variables
  match dictLookup d.template_sections normalized_path with
  | some sec => dictUpdate result sec
  | none =>
    match dictLookup d.template_sections template_path with
    | some sec => dictUpdate result sec
    | none => result

/-- `SaveFileManager.save_variables`, given the pre-existing document
(`none` models `SaveFileNotFoundError`, on which the code starts an empty
document).  The final `self.save` write is the returned document.  An empty
`template_path` string is falsy in Python and therefore targets `[general]`. -/
def save_variables (existing : Option SaveFileData) (full_path : String)
    (vars : Smap Value) (template_path : Option String) (is_global : Bool) :
    SaveFileData :=
  let save_data := existing.getD { path := full_path }
  let truthyTemplate : Bool :=
    match template_path with
    | some s => s ≠ ""
    | none => false
  let section_name : String :=
    match template_path with
    | some s => if s = "" then "general" else normalize_template_path s
    | none => "general"
  if is_global then
    { save_data with globals_variables := dictUpdate save_data.globals_variables vars }
  else if truthyTemplate then
    let existing_template_vars := (dictLookup save_data.template_sections section_name).getD []
    let merged := dictUpdate existing_template_vars vars
    { save_data with
        template_sections := dictInsert save_data.template_sections section_name merged }
  else
    { save_data with general_variables := dictUpdate save_data.general_variables vars }

-- ===========================================================================
-- Value coercion and loading (SaveFileData._parse_values, SaveFileManager.load)
-- ===========================================================================

/-- Python `str.isdigit()` restricted to ASCII decimal digits (the failing
inputs of interest are ASCII; non-ASCII Unicode digits are out of model). -/
def pyIsdigit (s : String) : Bool :=
  !s.toList.isEmpty && s.toList.all Char.isDigit

/-- Python `value.lstrip('-')`: drop every leading `'-'`. -/
def pyLstripMinus (s : String) : String :=
  String.mk (s.toList.dropWhile (fun c => c = '-'))

/-- Numeric value of an ASCII digit string. -/
def digitsToNat (cs : List Char) : Nat :=
  cs.foldl (fun a c => a * 10 + (c.toNat - 48)) 0

/-- Python `int(s)` on the strings reachable here: optional surrounding
whitespace, one optional sign, then decimal digits; `none` models the
`ValueError` raise.  (Underscore digit grouping never reaches `int` because
`isdigit` rejects it.) -/
def pyIntOpt (s : String) : Option Int :=
  let t := pyStripChars s.toList
  let (sgn, rest) :=
    match t with
    | '-' :: r => ((-1 : Int), r)
    | '+' :: r => ((1 : Int), r)
    | r => ((1 : Int), r)
  if rest ≠ [] ∧ rest.all Char.isDigit then some (sgn * (digitsToNat rest : Int))
  else none

/-- Split a character list at the first position satisfying `p`. -/
def splitFirst (p : Char → Bool) : List Char → Option (List Char × List Char)
  | [] => none
  | c :: rest =>
    if p c then some ([], rest)
    else
      match splitFirst p rest with
      | none => none
      | some (a, b) => some (c :: a, b)

/-- One optional leading sign. -/
def stripSign : List Char → List Char
  | '-' :: r => r
  | '+' :: r => r
  | cs => cs

/-- Valid Python float mantissa: digits, optionally with one dot, with at
least one digit overall. -/
def mantissaValid (cs : List Char) : Bool :=
  match splitFirst (fun c => c = '.') cs with
  | none => !cs.isEmpty && cs.all Char.isDigit
  | some (a, b) =>
    !(b.contains '.') && (!a.isEmpty || !b.isEmpty) &&
      a.all Char.isDigit && b.all Char.isDigit

/-- Valid Python float exponent part (after the `e`/`E`). -/
def expValid (cs : List Char) : Bool :=
  let cs := stripSign cs
  !cs.isEmpty && cs.all Char.isDigit

/-- Python `float(s)` succeeds, for the strings reachable from the coercion
guard (which admits only digits, `.`, `-`, `e`, `E`, so the `inf`/`nan` and
underscore forms are out of reach). -/
def pyFloatValid (s : String) : Bool :=
  let cs := stripSign (pyStripChars s.toList)
  match splitFirst (fun c => c = 'e' ∨ c = 'E') cs with
  | none => mantissaValid cs
  | some (m, e) => mantissaValid m && expValid e

/-- The characters deleted by the float guard in `_parse_values`:
`value.replace('.', '').replace('-', '').replace('e', '').replace('E', '')`. -/
def removeFloatGuardChars (v : String) : String :=
  String.mk (v.toList.filter (fun c => !(c = '.' ∨ c = '-' ∨ c = 'e' ∨ c = 'E')))

/-- The structural-literal trigger: `value.strip().startswith(('[', OPEN-BRACE, '('))`. -/
def startsStructuralB (value : String) : Bool :=
  match pyStripChars value.toList with
  | c :: _ => c = '[' || c = '\x7b' || c = '('
  | [] => false

/-- The integer-coercion guard: `value.lstrip('-').isdigit()`. -/
def intGuard (value : String) : Bool :=
  pyIsdigit (pyLstripMinus value)

/-- The float-coercion guard:
`'.' in value and value.replace('.', '').replace('-', '').replace('e', '').replace('E', '').isdigit()`. -/
def floatGuard (value : String) : Bool :=
  value.toList.contains '.' && pyIsdigit (removeFloatGuardChars value)

/-- One value coercion step of `SaveFileData._parse_values`.  `lit` stands for
`ast.literal_eval`, abstracted: `some v` is a successful structural-literal
parse, `none` a `ValueError`/`SyntaxError` that the code catches and falls
through from.  The `.error` results are the uncaught `ValueError`s of
`int(value)` / `float(value)`. -/
def parseValue (lit : String → Option Value) (value : String) : Except PyExn Value :=
  let structural : Option Value :=
    if startsStructuralB value then lit value else none
  match structural with
  | some v => .ok v
  | none =>
    let value_lower := pyStrip (pyLower value)
    if value_lower = "true" ∨ value_lower = "yes" ∨ value_lower = "on"
        ∨ value_lower = "1" then
      .ok (.vBool true)
    else if value_lower = "false" ∨ value_lower = "no" ∨ value_lower = "off"
        ∨ value_lower = "0" then
      .ok (.vBool false)
    else if intGuard value then
      match pyIntOpt value with
      | some n => .ok (.vInt n)
      | none => .error .valueError
    else if floatGuard value then
      if pyFloatValid value then .ok (.vFloat value) else .error .valueError
    else
      .ok (.vStr value)

/-- `SaveFileData._parse_values` over a whole section (keys are unique, as
configparser guarantees; the first bad value raises). -/
def parse_values (lit : String → Option Value) :
    List (String × String) → Except PyExn (Smap Value)
  | [] => .ok []
  | (k, v) :: rest => do
    let pv ← parseValue lit v
    let r ← parse_values lit rest
    return (k, pv) :: r

/-- Coercion of the non-`globals`/`general` sections, in document order. -/
def parseSections (lit : String → Option Value) :
    List (String × List (String × String)) → Except PyExn (Smap (Smap Value))
  | [] => .ok []
  | (k, v) :: rest => do
    let pv ← parse_values lit v
    let r ← parseSections lit rest
    return (k, pv) :: r

/-- `SaveFileData.from_configparser`: split out `[globals]` and `[general]`,
treat every other section as template-specific, then coerce the values. -/
def from_configparser (lit : String → Option Value) (path : String)
    (sections : List (String × List (String × String))) : Except PyExn SaveFileData := do
  let globals_vars ← parse_values lit ((dictLookup sections "globals").getD [])
  let general_vars ← parse_values lit ((dictLookup sections "general").getD [])
  let template_sections ← parseSections lit
    (sections.filter (fun kv => kv.1 ≠ "globals" && kv.1 ≠ "general"))
  return { path := path, globals_variables := globals_vars,
           general_variables := general_vars, template_sections := template_sections }

/-- The on-disk situation `SaveFileManager.load` can meet: no file, a file
that `configparser` rejects (`configparser.Error`), or a structurally parsed
file given as its section/option/value strings. -/
inductive INIFile : Type where
  | absent : INIFile
  | malformed : INIFile
  | parsed : List (String × List (String × String)) → INIFile
  deriving DecidableEq, Repr

/-- The outcomes of `SaveFileManager.load`: `SaveFileNotFoundError`,
`SaveFileFormatError`, or an uncaught `ValueError` escaping the value
coercion (the `except` clause catches only `configparser.Error`). -/
inductive LoadErr : Type where
  | notFound : LoadErr
  | formatError : LoadErr
  | valueError : LoadErr
  deriving DecidableEq, Repr

/-- `SaveFileManager.load`. -/
def load (lit : String → Option Value) (full_path : String) (file : INIFile) :
    Except LoadErr SaveFileData :=
  match file with
  | .absent => .error .notFound
  | .malformed => .error .formatError
  | .parsed sections =>
    match from_configparser lit full_path sections with
    | .ok d => .ok d
    | .error .valueError => .error .valueError

-- ===========================================================================
-- src/interactive_shell.py : _determine_variable_source
-- ===========================================================================

/-- `VariableDefinition` (src/template_parser.py): only the `default` field
(Python `None` = `none`) matters to the resolver. -/
structure VariableDefinition where
  default : Option Value
  deriving DecidableEq, Repr

/-- `TemplateDefinition` (src/template_parser.py): declared variables.  The
Python field name is `variables`, a reserved word in Lean. -/
structure TemplateDefinition where
  vars : Smap VariableDefinition
  deriving DecidableEq, Repr

/-- The shell's inline normalization in `_determine_variable_source`:
`template_path.replace('.template', '')` when the path ends with
`.template` (note: `str.replace` removes every occurrence). -/
def normalizeShellTemplatePath (template_path : String) : String :=
  if ".template".toList.isSuffixOf template_path.toList then
    pyReplace template_path ".template" ""
  else template_path

/-- `InteractiveShell._determine_variable_source`.  `session_vars` is
`state_manager.get_all_variables()`, `save_data` the loaded save file
(`none`: no active save path, or the load failed), `global_vars` is
`state_manager.get_all_global_variables()`. -/
def determine_variable_source (var_name template_path : String)
    (template_def current_template : Option TemplateDefinition)
    (session_vars : Smap Value) (save_data : Option SaveFileData)
    (global_vars : Smap Value) : String × Option Value :=
  let template_to_check :=
    match template_def with
    | some t => some t
    | none => current_template
  match dictLookup session_vars var_name with
  | some v => ("user_set", some v)
  | none =>
    let templateHit : Option Value :=
      match save_data with
      | none => none
      | some sd =>
        let normalized_path := normalizeShellTemplatePath template_path
        match dictLookup sd.template_sections normalized_path with
        | some template_vars => dictLookup template_vars var_name
        | none =>
          match dictLookup sd.template_sections template_path with
          | some template_vars => dictLookup template_vars var_name
          | none => none
    match templateHit with
    | some v => ("template", some v)
    | none =>
      let defaultHit : Option Value :=
        match template_to_check with
        | none => none
        | some t =>
          match dictLookup t.vars var_name with
          | some vd => vd.default
          | none => none
      match defaultHit with
      | some v => ("default", some v)
      | none =>
        let generalHit : Option Value :=
          match save_data with
          | none => none
          | some sd => dictLookup sd.general_variables var_name
        match generalHit with
        | some v => ("general", some v)
        | none =>
          let saveGlobalHit : Option Value :=
            match save_data with
            | none => none
            | some sd => dictLookup sd.globals_variables var_name
          match saveGlobalHit with
          | some v => ("save_global", some v)
          | none =>
            match dictLookup global_vars var_name with
            | some v => ("global", some v)
            | none => ("unset", none)

/-- The resolver exactly as claim C1 words it: seven layers checked in order,
first match wins.  Layer 2 is the save file's template-specific section for
this template, selected by the normalized key with the legacy
extension-included key as fallback. -/
def resolveSpec (var_name template_path : String)
    (active_template : Option TemplateDefinition)
    (session_vars : Smap Value) (save_data : Option SaveFileData)
    (global_vars : Smap Value) : String × Option Value :=
  let sessionVal := dictLookup session_vars var_name
  let activeSection : Smap Value :=
    match save_data with
    | none => []
    | some sd =>
      match dictLookup sd.template_sections (normalizeShellTemplatePath template_path) with
      | some sec => sec
      | none => (dictLookup sd.template_sections template_path).getD []
  let templateVal := dictLookup activeSection var_name
  let defaultVal : Option Value :=
    match active_template with
    | none => none
    | some t =>
      match dictLookup t.vars var_name with
      | some vd => vd.default
      | none => none
  let generalVal : Option Value :=
    match save_data with
    | none => none
    | some sd => dictLookup sd.general_variables var_name
  let saveGlobalVal : Option Value :=
    match save_data with
    | none => none
    | some sd => dictLookup sd.globals_variables var_name
  let globalVal := dictLookup global_vars var_name
  if sessionVal.isSome then ("user_set", sessionVal)
  else if templateVal.isSome then ("template", templateVal)
  else if defaultVal.isSome then ("default", defaultVal)
  else if generalVal.isSome then ("general", generalVal)
  else if saveGlobalVal.isSome then ("save_global", saveGlobalVal)
  else if globalVal.isSome then ("global", globalVal)
  else ("unset", none)

-- ===========================================================================
-- Backup / restore / cross-session globals (StateManager interface)
-- ===========================================================================

/-- The two persisted documents the backup interface touches. -/
structure PersistWorld where
  stateFile : Option StateDoc
  backupFile : Option StateDoc
  deriving DecidableEq, Repr

/-- Modelled from the spec: `StateManager.backup_state` is called from
src/interactive_shell.py but its definition is not in src/state_manager.py.
Per spec section 4.1 it copies the entire persisted document verbatim to a
separate backup path. -/
def backup_state (w : PersistWorld) : PersistWorld :=
  { w with backupFile := w.stateFile }

/-- Modelled from the spec: `StateManager.restore_from_backup` is called from
src/interactive_shell.py but its definition is not in src/state_manager.py.
Per spec section 4.1 it loads the backup document and makes it the live state
(including its own history/toggle), returning false if no backup exists; the
deserialization reuses the code's `_load_state` embedding. -/
def restore_from_backup (m : StateMgr) (w : PersistWorld) (now : String) :
    StateMgr × Bool :=
  match w.backupFile with
  | none => (m, false)
  | some d => (loadStateDoc d now, true)

/-- Modelled from the spec: `StateManager.set_global_variable` is called from
src/interactive_shell.py but its definition is not in src/state_manager.py.
Per spec section 4.3/6 it writes one entry of the cross-session
global-variable set. -/
def set_global_variable (g : Smap Value) (name : String) (value : Value) :
    Smap Value :=
  dictInsert g name value

/-- Modelled from the spec: `StateManager.get_all_global_variables` is called
from src/interactive_shell.py but its definition is not in
src/state_manager.py.  Per spec section 6 it reads the cross-session
global-variable set. -/
def get_all_global_variables (g : Smap Value) : Smap Value := g

-- ===========================================================================
-- Atomic persistence with an injected write failure
-- (StateManager.save_state / SaveFileManager.save)
-- ===========================================================================

/-- Where a simulated write failure strikes: while writing the temp file
(`json.dump` / `config.write` raising inside the `with` block) or at the
`shutil.move` rename. -/
inductive WriteFailure : Type where
  | tempWrite : WriteFailure
  | rename : WriteFailure
  deriving DecidableEq, Repr

/-- What a failed or successful atomic write raises: the wrapped
`StateSaveError`/`SaveFileSaveError` raised by the `except OSError` handler
around the rename, or the unwrapped underlying exception propagating out of
the temp-file write. -/
inductive AtomicWriteExn : Type where
  | wrappedSaveError : AtomicWriteExn
  | underlyingWriteError : AtomicWriteExn
  deriving DecidableEq, Repr

/-- Outcome of one atomic-write attempt over content of type `α`: the
exception (if any), the target file afterwards, and whether the temp file was
left behind. -/
structure AtomicWriteResult (α : Type) where
  raised : Option AtomicWriteExn
  fileContent : Option α
  tempLeft : Bool
  deriving DecidableEq, Repr

/-- `StateManager.save_state` with an injected failure, over the previous
file content `prev`.  A temp-write failure escapes the `with` block before
the `try`, so nothing deletes the temp file (`delete=False`) and nothing
wraps the exception; a rename failure is caught, the temp file unlinked, and
`StateSaveError` raised. -/
def save_state_attempt (m : StateMgr) (prev : Option StateDoc)
    (fail : Option WriteFailure) : AtomicWriteResult StateDoc :=
  match fail with
  | some .tempWrite =>
    { raised := some .underlyingWriteError, fileContent := prev, tempLeft := true }
  | some .rename =>
    { raised := some .wrappedSaveError, fileContent := prev, tempLeft := false }
  | none =>
    { raised := none, fileContent := some (serializeDoc m), tempLeft := false }

/-- `SaveFileManager.save` with an injected failure: identical write
discipline (the written content is the configparser serialization of the
document, 1-1 with the document itself). -/
def save_attempt (d : SaveFileData) (prev : Option SaveFileData)
    (fail : Option WriteFailure) : AtomicWriteResult SaveFileData :=
  match fail with
  | some .tempWrite =>
    { raised := some .underlyingWriteError, fileContent := prev, tempLeft := true }
  | some .rename =>
    { raised := some .wrappedSaveError, fileContent := prev, tempLeft := false }
  | none =>
    { raised := none, fileContent := some d, tempLeft := false }

-- ===========================================================================
-- Claim theorems
-- ===========================================================================

/-- C2 (claim right, code wrong): the toggle path behaves exactly as the
claim states whenever a current session state exists — `revert()` swaps
current with the toggle, clears the toggle, persists and returns success,
before consulting history — but the claimed A/B scenario is broken by a slip
in `SessionState.copy_with`: whenever a current state exists, `set_template`
raises ValueError (copy_with deletes the `timestamp` key and `from_dict`
then rejects the dict), so after `set_template("A")` the call
`set_template("B")` raises, the current template stays "A", and the first
`revert()` returns False instead of toggling. -/
theorem c2_toggle_revert :
    (∀ (m : StateMgr) (c t : SessionState),
        m.current_state = some c → m.revert_toggle_state = some t →
        revert m = (doSave { m with current_state := some t, revert_toggle_state := none }, true))
    ∧ (∀ (m : StateMgr) (c : SessionState) (tp now : String),
        m.current_state = some c →
        (set_template m tp now).2 = some .valueError
        ∧ (set_template m tp now).1.current_state = some c)
    ∧ ((set_template (set_template ({} : StateMgr) "A" "n1").1 "B" "n2").2
          = some PyExn.valueError
      ∧ (set_template (set_template ({} : StateMgr) "A" "n1").1 "B" "n2").1.current_state.map
          (fun s => s.template_path) = some (some "A")
      ∧ (revert (set_template (set_template ({} : StateMgr) "A" "n1").1 "B" "n2").1).2
          = false) := by
  refine ⟨?_, ?_, by decide, by decide, by decide⟩
  · intro m c t hc ht
    unfold revert
    rw [hc, ht]
  · intro m c tp now hc
    constructor <;>
      simp [set_template, pushToHistory, copy_with_template_path, hc]

/-- C2 witness: the toggle path and the raising `set_template` at concrete
inputs. -/
theorem c2_toggle_revert_witness :
    revert { current_state := some { template_path := some "B", vars := [], timestamp := "t2" },
             history := [],
             revert_toggle_state := some { template_path := some "A", vars := [], timestamp := "t1" },
             disk := none }
      = (doSave { current_state := some { template_path := some "A", vars := [], timestamp := "t1" },
                  history := [], revert_toggle_state := none, disk := none }, true)
    ∧ (set_template { current_state := some { template_path := some "A", vars := [],
                                              timestamp := "t1" },
                      history := [], revert_toggle_state := none, disk := none }
        "B" "n2").2 = some PyExn.valueError :=
  ⟨c2_toggle_revert.1 _ _ _ rfl rfl,
   (c2_toggle_revert.2.1 _ _ "B" "n2" rfl).1⟩

/-- C3 (claim right, code wrong): both claimed scenarios are unreachable
because `set_template` raises once a current state exists.  In
`set_template(A); set_template(B); set_template(B); set_template(C)` every
call after the first raises ValueError from `SessionState.copy_with` (still
pushing the unchanged A-state to history and clearing the toggle first), the
current template stays A, history fills with three A-states, and `revert()`
returns False instead of reverting to A; likewise in the
`set_template(A); set_template(B); set_template(C)` chain, where the claim
expects `revert()` to reach B. -/
theorem c3_duplicate_skip :
    ((set_template (set_template ({} : StateMgr) "A" "n1").1 "B" "n2").2
        = some PyExn.valueError
    ∧ (set_template (set_template (set_template ({} : StateMgr) "A" "n1").1 "B" "n2").1
        "B" "n3").2 = some PyExn.valueError
    ∧ (set_template (set_template (set_template (set_template ({} : StateMgr) "A" "n1").1
        "B" "n2").1 "B" "n3").1 "C" "n4").2 = some PyExn.valueError
    ∧ (set_template (set_template (set_template (set_template ({} : StateMgr) "A" "n1").1
        "B" "n2").1 "B" "n3").1 "C" "n4").1.current_state.map (fun s => s.template_path)
        = some (some "A")
    ∧ (set_template (set_template (set_template (set_template ({} : StateMgr) "A" "n1").1
        "B" "n2").1 "B" "n3").1 "C" "n4").1.history.map (fun s => s.template_path)
        = [some "A", some "A", some "A"]
    ∧ (revert (set_template (set_template (set_template (set_template ({} : StateMgr) "A" "n1").1
        "B" "n2").1 "B" "n3").1 "C" "n4").1).2 = false)
    ∧ (revert (set_template (set_template (set_template ({} : StateMgr) "A" "n1").1 "B" "n2").1
        "C" "n3").1).2 = false := by
  exact ⟨⟨by decide, by decide, by decide, by decide, by decide, by decide⟩, by decide⟩

/-- C4: `backup_state` copies the entire persisted document verbatim to the
backup path; `restore_from_backup` returns false (and changes nothing) when
no backup exists, and otherwise loads the backup document into the live
state — current state, its own history and its own toggle — returning true;
`set_global_variable` / `get_all_global_variables` write and read the
cross-session global-variable set.  (`set_template`, `set_variable(s)`,
`unset_variable`, `get_variable(s)` and `revert` are the src-level
operations embedded above.) -/
theorem c4_backup_restore_globals :
    (∀ w : PersistWorld,
        (backup_state w).backupFile = w.stateFile ∧ (backup_state w).stateFile = w.stateFile)
    ∧ (∀ (m : StateMgr) (w : PersistWorld) (now : String),
        w.backupFile = none → restore_from_backup m w now = (m, false))
    ∧ (∀ (m : StateMgr) (w : PersistWorld) (d : StateDoc) (now : String),
        w.backupFile = some d →
        restore_from_backup m w now = (loadStateDoc d now, true)
        ∧ (restore_from_backup m w now).1.history
            = d.history.map (fun s => mkSessionState s.template_path s.vars s.timestamp now)
        ∧ (restore_from_backup m w now).1.revert_toggle_state
            = d.revert_toggle_state.map (fun s => mkSessionState s.template_path s.vars s.timestamp now))
    ∧ (∀ (g : Smap Value) (n : String) (v : Value),
        dictLookup (get_all_global_variables (set_global_variable g n v)) n = some v
        ∧ ∀ k, k ≠ n →
            dictLookup (get_all_global_variables (set_global_variable g n v)) k
              = dictLookup g k) := by
  refine ⟨fun w => ⟨rfl, rfl⟩, fun m w now h => by simp [restore_from_backup, h],
    fun m w d now h => ?_, fun g n v => ⟨?_, fun k hk => ?_⟩⟩
  · refine ⟨by simp [restore_from_backup, h], ?_, ?_⟩ <;>
      simp [restore_from_backup, h, loadStateDoc]
  · simp [get_all_global_variables, set_global_variable, dictLookup_insert]
  · simp [get_all_global_variables, set_global_variable, dictLookup_insert, hk]

/-- C4 witness: the backup/restore/global operations at concrete inputs. -/
theorem c4_backup_restore_globals_witness :
    restore_from_backup {} { stateFile := none, backupFile := none } "NOW" = ({}, false)
    ∧ restore_from_backup {}
        { stateFile := none,
          backupFile := some { current_template := some "A", vars := [], timestamp := "t",
                               history := [], revert_toggle_state := none } } "NOW"
      = (loadStateDoc { current_template := some "A", vars := [], timestamp := "t",
                        history := [], revert_toggle_state := none } "NOW", true)
    ∧ dictLookup (get_all_global_variables (set_global_variable [] "x" (.vInt 3))) "x"
        = some (.vInt 3) :=
  ⟨c4_backup_restore_globals.2.1 {} _ "NOW" rfl,
   (c4_backup_restore_globals.2.2.1 {} _ _ "NOW" rfl).1,
   (c4_backup_restore_globals.2.2.2 [] "x" (.vInt 3)).1⟩

/-- C8 counterexample: with a failure injected during the temp-file write,
`save_state` does not raise the wrapped SaveError (the underlying exception
propagates) and the temp file is left behind rather than deleted, so the
claim's "reported as a SaveError ... temporary file is deleted ... holds
both for a failure while writing the temp file and for a failure of the
rename" is false for the temp-write case. -/
theorem c8_counterexample :
    (save_state_attempt {}
        (some { current_template := some "A", vars := [], timestamp := "t",
                history := [], revert_toggle_state := none })
        (some .tempWrite)).raised ≠ some .wrappedSaveError
    ∧ (save_state_attempt {}
        (some { current_template := some "A", vars := [], timestamp := "t",
                history := [], revert_toggle_state := none })
        (some .tempWrite)).tempLeft = true := by
  exact ⟨by decide, rfl⟩

/-- C8 (amended): a write failure in `StateManager.save_state` or
`SaveFileManager.save` is fatal only to that single operation and always
leaves the previously persisted file byte-for-byte untouched; on a rename
failure it is reported as a SaveError and the temp file is deleted, while on
a temp-file-write failure the underlying exception propagates unwrapped and
the temp file is left behind; a failure-free write replaces the file content
and leaves no temp file. -/
theorem c8_write_failure :
    (∀ (m : StateMgr) (prev : Option StateDoc),
        save_state_attempt m prev (some .rename)
          = { raised := some .wrappedSaveError, fileContent := prev, tempLeft := false }
        ∧ save_state_attempt m prev (some .tempWrite)
          = { raised := some .underlyingWriteError, fileContent := prev, tempLeft := true }
        ∧ save_state_attempt m prev none
          = { raised := none, fileContent := some (serializeDoc m), tempLeft := false })
    ∧ (∀ (d : SaveFileData) (prev : Option SaveFileData),
        save_attempt d prev (some .rename)
          = { raised := some .wrappedSaveError, fileContent := prev, tempLeft := false }
        ∧ save_attempt d prev (some .tempWrite)
          = { raised := some .underlyingWriteError, fileContent := prev, tempLeft := true }
        ∧ save_attempt d prev none
          = { raised := none, fileContent := some d, tempLeft := false }) :=
  ⟨fun m prev => ⟨rfl, rfl, rfl⟩, fun d prev => ⟨rfl, rfl, rfl⟩⟩

/-- C9 counterexample: a SessionState with no template and an empty variable
map (constructible in Python as `SessionState()` plus an explicit timestamp)
does not survive a save/load round trip: `_load_state` deserializes no
current state at all, so none of its fields are reproduced. -/
theorem c9_counterexample :
    (loadStateDoc (serializeDoc
        { current_state := some { template_path := none, vars := [],
                                  timestamp := "2024-01-01T00:00:00" },
          history := [], revert_toggle_state := none, disk := none }) "NOW").current_state
      = none := rfl

/-- C9 (amended): for every SessionState whose template is present or whose
variable map is non-empty (and whose timestamp is non-empty, as the
dataclass construction guarantees), persisting via `save_state` and loading
the state file reproduces the current state — template, variables and
timestamp — exactly. -/
theorem c9_roundtrip :
    ∀ (s : SessionState) (hist : List SessionState) (tog : Option SessionState)
      (dsk : Option StateDoc) (now : String),
      s.timestamp ≠ "" →
      (s.template_path ≠ none ∨ s.vars ≠ []) →
      (loadStateDoc (serializeDoc { current_state := some s, history := hist,
                                    revert_toggle_state := tog, disk := dsk })
          now).current_state = some s := by
  intro s hist tog dsk now hts hne
  obtain ⟨tp, vs, ts⟩ := s
  have hcond : tp.isSome ∨ vs ≠ [] := by
    rcases hne with h | h
    · exact Or.inl (Option.ne_none_iff_isSome.mp h)
    · exact Or.inr h
  simp only at hts
  simp [loadStateDoc, serializeDoc, mkSessionState, hcond, hts]

/-- C9 witness: the round trip at a concrete session state. -/
theorem c9_roundtrip_witness :
    (loadStateDoc (serializeDoc { current_state := some { template_path := some "A",
                                                          vars := [], timestamp := "t" },
                                  history := [], revert_toggle_state := none, disk := none })
      "NOW").current_state
      = some { template_path := some "A", vars := [], timestamp := "t" } :=
  c9_roundtrip { template_path := some "A", vars := [], timestamp := "t" } [] none none "NOW"
    (by decide) (Or.inl (by decide))

/-- C10: when no current session state exists, `revert()` returns False and
changes neither the in-memory manager nor the persisted file, even with a
populated ToggleSlot; and loading a state file with null `current_template`
and empty variables leaves `current_state` as None while still deserializing
a stored `revert_toggle_state`, and drops the stored timestamp (a subsequent
serialization writes an empty timestamp). -/
theorem c10_revert_without_current :
    (∀ m : StateMgr, m.current_state = none → revert m = (m, false))
    ∧ (∀ (ts now : String) (hist : List SessionState) (tog : SessionState),
        (loadStateDoc { current_template := none, vars := [], timestamp := ts,
                        history := hist, revert_toggle_state := some tog } now).current_state
          = none
        ∧ (loadStateDoc { current_template := none, vars := [], timestamp := ts,
                          history := hist, revert_toggle_state := some tog } now).revert_toggle_state
          = some (mkSessionState tog.template_path tog.vars tog.timestamp now)
        ∧ (serializeDoc (loadStateDoc { current_template := none, vars := [], timestamp := ts,
                                        history := hist, revert_toggle_state := some tog }
            now)).timestamp = "") := by
  constructor
  · intro m h
    unfold revert
    rw [h]
  · intro ts now hist tog
    refine ⟨?_, ?_, ?_⟩ <;> simp [loadStateDoc, serializeDoc]

/-- C10 witness: the no-current-state revert and the crafted load at
concrete inputs. -/
theorem c10_revert_without_current_witness :
    revert { current_state := none, history := [],
             revert_toggle_state := some { template_path := some "B", vars := [],
                                           timestamp := "t2" },
             disk := none }
      = ({ current_state := none, history := [],
           revert_toggle_state := some { template_path := some "B", vars := [], timestamp := "t2" },
           disk := none }, false)
    ∧ (loadStateDoc { current_template := none, vars := [], timestamp := "t9", history := [],
                      revert_toggle_state := some { template_path := some "B", vars := [],
                                                    timestamp := "t2" } }
        "NOW").current_state = none :=
  ⟨c10_revert_without_current.1 _ rfl,
   (c10_revert_without_current.2 "t9" "NOW" []
      { template_path := some "B", vars := [], timestamp := "t2" }).1⟩

/-- C6: `save_variables` merges the written variables on top of only the
targeted section — `[globals]` when `is_global`, the extension-normalized
template section when a (non-empty) template key is given, `[general]`
otherwise — existing keys of the targeted section not present in the write
survive, and every other section of the document is unchanged.  `existing`
is the loaded document, `none` when the file did not exist (an empty
document is started). -/
theorem c6_save_variables_frame :
    ∀ (existing : Option SaveFileData) (full_path : String) (vs : Smap Value),
      (∀ tk : Option String,
          (save_variables existing full_path vs tk true).globals_variables
            = dictUpdate (existing.getD { path := full_path }).globals_variables vs
          ∧ (save_variables existing full_path vs tk true).general_variables
            = (existing.getD { path := full_path }).general_variables
          ∧ (save_variables existing full_path vs tk true).template_sections
            = (existing.getD { path := full_path }).template_sections)
      ∧ (∀ s : String, s ≠ "" →
          (save_variables existing full_path vs (some s) false).template_sections
            = dictInsert (existing.getD { path := full_path }).template_sections
                (normalize_template_path s)
                (dictUpdate ((dictLookup (existing.getD { path := full_path }).template_sections
                    (normalize_template_path s)).getD [])
                  vs)
          ∧ (save_variables existing full_path vs (some s) false).globals_variables
            = (existing.getD { path := full_path }).globals_variables
          ∧ (save_variables existing full_path vs (some s) false).general_variables
            = (existing.getD { path := full_path }).general_variables
          ∧ (∀ k, k ≠ normalize_template_path s →
              dictLookup (save_variables existing full_path vs (some s) false).template_sections k
                = dictLookup (existing.getD { path := full_path }).template_sections k))
      ∧ ((save_variables existing full_path vs none false).general_variables
            = dictUpdate (existing.getD { path := full_path }).general_variables vs
          ∧ (save_variables existing full_path vs none false).globals_variables
            = (existing.getD { path := full_path }).globals_variables
          ∧ (save_variables existing full_path vs none false).template_sections
            = (existing.getD { path := full_path }).template_sections)
      ∧ (∀ key, key ∉ dictKeys vs →
          (∀ tk : Option String,
              dictLookup (save_variables existing full_path vs tk true).globals_variables key
                = dictLookup (existing.getD { path := full_path }).globals_variables key)
          ∧ dictLookup (save_variables existing full_path vs none false).general_variables key
              = dictLookup (existing.getD { path := full_path }).general_variables key
          ∧ (∀ s : String, s ≠ "" →
              dictLookup ((dictLookup (save_variables existing full_path vs (some s)
                    false).template_sections (normalize_template_path s)).getD []) key
                = dictLookup ((dictLookup (existing.getD { path := full_path }).template_sections
                    (normalize_template_path s)).getD []) key)) := by
  intro existing full_path vs
  refine ⟨fun tk => ⟨?_, ?_, ?_⟩, fun s hs => ⟨?_, ?_, ?_, fun k hk => ?_⟩,
    ⟨?_, ?_, ?_⟩, fun key hkey => ⟨fun tk => ?_, ?_, fun s hs => ?_⟩⟩
  · simp [save_variables]
  · simp [save_variables]
  · simp [save_variables]
  · simp [save_variables, hs]
  · simp [save_variables, hs]
  · simp [save_variables, hs]
  · simp [save_variables, hs, dictLookup_insert, hk]
  · simp [save_variables]
  · simp [save_variables]
  · simp [save_variables]
  · simp [save_variables, dictLookup_update_of_not_mem _ _ _ hkey]
  · simp [save_variables, dictLookup_update_of_not_mem _ _ _ hkey]
  · simp [save_variables, hs, dictLookup_insert, dictLookup_update_of_not_mem _ _ _ hkey]

/-- The concrete document used by the C6 witness. -/
def c6doc : SaveFileData :=
  { path := "p", globals_variables := [("g", .vInt 5)],
    general_variables := [("n", .vInt 6)],
    template_sections := [("invoice", [("x", .vInt 1), ("y", .vInt 9)]),
                          ("other", [("z", .vInt 7)])] }

/-- C6 witness: saving `x=2` into the template section of a document whose
section holds `x=1, y=9` overwrites `x`, keeps `y`, and leaves the other
sections of the document unchanged. -/
theorem c6_save_variables_frame_witness :
    (save_variables (some c6doc) "p" [("x", .vInt 2)]
        (some "invoice.template") false).template_sections
      = [("invoice", [("x", .vInt 2), ("y", .vInt 9)]), ("other", [("z", .vInt 7)])]
    ∧ dictLookup ((dictLookup (save_variables (some c6doc) "p" [("x", .vInt 2)]
          (some "invoice.template") false).template_sections
          (normalize_template_path "invoice.template")).getD []) "y"
      = dictLookup ((dictLookup ((some c6doc).getD { path := "p" }).template_sections
          (normalize_template_path "invoice.template")).getD []) "y" := by
  constructor
  · decide
  · exact ((c6_save_variables_frame (some c6doc) "p" [("x", .vInt 2)]).2.2.2 "y"
      (by decide)).2.2 "invoice.template" (by decide)

/-- The template section that `get_variables_for_template` merges on top:
the section under the normalized key when present, else the section under
the raw (extension-included) key, else nothing. -/
def selectedSection (d : SaveFileData) (template_path : String) : Smap Value :=
  match dictLookup d.template_sections (normalize_template_path template_path) with
  | some sec => sec
  | none => (dictLookup d.template_sections template_path).getD []

/-- C5: `get_variables_for_template` returns globals overlaid by general
overlaid by the matching template section, later layers overriding earlier
ones key-by-key (for documents with duplicate-free section keys, as
configparser guarantees); concretely `general={x:1}` with template section
`{x:2}` yields `x=2`; a section stored under key `"invoice"` is returned
identically whether queried as `"invoice"` or `"invoice.template"`; and the
normalized key takes precedence when both an `"invoice"` and an
`"invoice.template"` section exist. -/
theorem c5_cascade :
    (∀ (d : SaveFileData) (template_path key : String),
        (dictKeys d.general_variables).Nodup →
        (dictKeys (selectedSection d template_path)).Nodup →
        dictLookup (get_variables_for_template d template_path) key
          = ((dictLookup (selectedSection d template_path) key).or
              ((dictLookup d.general_variables key).or
                (dictLookup d.globals_variables key))))
    ∧ dictLookup (get_variables_for_template
        { path := "p", globals_variables := [], general_variables := [("x", .vInt 1)],
          template_sections := [("t", [("x", .vInt 2)])] } "t") "x" = some (.vInt 2)
    ∧ (∀ d : SaveFileData, (dictLookup d.template_sections "invoice").isSome →
        get_variables_for_template d "invoice" = get_variables_for_template d "invoice.template")
    ∧ dictLookup (get_variables_for_template
        { path := "p", globals_variables := [], general_variables := [],
          template_sections := [("invoice", [("x", .vInt 1)]),
                                ("invoice.template", [("x", .vInt 9)])] }
        "invoice.template") "x" = some (.vInt 1) := by
  refine ⟨?_, by decide, ?_, by decide⟩
  · intro d template_path key hgen hsec
    unfold get_variables_for_template selectedSection at *
    cases hn : dictLookup d.template_sections (normalize_template_path template_path) with
    | some sec =>
      rw [hn] at hsec
      simp only [hn]
      rw [dictLookup_update _ _ _ hsec, dictLookup_update _ _ _ hgen]
    | none =>
      rw [hn] at hsec
      simp only [hn]
      cases hr : dictLookup d.template_sections template_path with
      | some sec =>
        rw [hr] at hsec
        simp only [Option.getD_some] at hsec
        simp only [hr, Option.getD_some]
        rw [dictLookup_update _ _ _ hsec, dictLookup_update _ _ _ hgen]
      | none =>
        simp only [hr, Option.getD_none]
        rw [dictLookup_update _ _ _ hgen]
        rfl
  · intro d h
    have hnorm1 : normalize_template_path "invoice" = "invoice" := by decide
    have hnorm2 : normalize_template_path "invoice.template" = "invoice" := by decide
    obtain ⟨sec, hsec⟩ := Option.isSome_iff_exists.mp h
    simp [get_variables_for_template, hnorm1, hnorm2, hsec]

/-- The concrete document used by the C5 witness. -/
def c5doc : SaveFileData :=
  { path := "p", globals_variables := [("g", .vInt 5)],
    general_variables := [("x", .vInt 1)],
    template_sections := [("t", [("x", .vInt 2)])] }

/-- The second concrete document used by the C5 witness. -/
def c5doc2 : SaveFileData :=
  { path := "p", globals_variables := [], general_variables := [],
    template_sections := [("invoice", [("x", .vInt 1)])] }

/-- C5 witness: the pointwise cascade and the extension-normalization
equivalence at concrete documents. -/
theorem c5_cascade_witness :
    dictLookup (get_variables_for_template c5doc "t") "x"
      = ((dictLookup (selectedSection c5doc "t") "x").or
          ((dictLookup c5doc.general_variables "x").or
            (dictLookup c5doc.globals_variables "x")))
    ∧ get_variables_for_template c5doc2 "invoice"
        = get_variables_for_template c5doc2 "invoice.template" :=
  ⟨c5_cascade.1 c5doc "t" "x" (by decide) (by decide),
   c5_cascade.2.2.1 c5doc2 (by decide)⟩


/-- A value string is coercion-safe when each numeric guard it passes is met
by a successful conversion (the condition under which `_parse_values` cannot
raise). -/
def coercionSafe (v : String) : Bool :=
  if intGuard v then (pyIntOpt v).isSome
  else if floatGuard v then pyFloatValid v
  else true

/-- All value strings of all sections are coercion-safe. -/
def sectionsSafe (sections : List (String × List (String × String))) : Bool :=
  sections.all (fun sec => sec.2.all (fun kv => coercionSafe kv.2))

theorem parseValue_cases (lit : String → Option Value) (v : String) :
    (parseValue lit v).isOk = true
    ∨ (intGuard v = true ∧ pyIntOpt v = none)
    ∨ (intGuard v = false ∧ floatGuard v = true ∧ pyFloatValid v = false) := by
  unfold parseValue
  cases h1 : (if startsStructuralB v then lit v else none) with
  | some u => left; rfl
  | none =>
    simp only []
    split
    · left; rfl
    · split
      · left; rfl
      · split
        · next hg =>
            cases hopt : pyIntOpt v with
            | some n => left; rfl
            | none => right; left; exact ⟨hg, rfl⟩
        · next hg =>
            split
            · next hf =>
                cases hfv : pyFloatValid v with
                | true => left; rfl
                | false =>
                    right; right
                    refine ⟨?_, hf, rfl⟩
                    simp only [Bool.not_eq_true] at hg
                    exact hg
            · left; rfl

theorem parseValue_safe (lit : String → Option Value) (v : String)
    (h : coercionSafe v = true) : (parseValue lit v).isOk = true := by
  rcases parseValue_cases lit v with h1 | ⟨hg, hopt⟩ | ⟨hg, hf, hfv⟩
  · exact h1
  · unfold coercionSafe at h
    rw [if_pos hg, hopt] at h
    simp at h
  · unfold coercionSafe at h
    rw [if_neg (by simp [hg]), if_pos hf, hfv] at h
    simp at h

theorem parse_values_safe (lit : String → Option Value) (l : List (String × String))
    (h : l.all (fun kv => coercionSafe kv.2) = true) :
    (parse_values lit l).isOk = true := by
  induction l with
  | nil => rfl
  | cons kv rest ih =>
    simp only [List.all_cons, Bool.and_eq_true] at h
    have h1 := parseValue_safe lit kv.2 h.1
    obtain ⟨u, hu⟩ : ∃ u, parseValue lit kv.2 = .ok u := by
      cases he : parseValue lit kv.2 with
      | ok u => exact ⟨u, rfl⟩
      | error e => rw [he] at h1; exact Bool.noConfusion h1
    obtain ⟨r, hr⟩ : ∃ r, parse_values lit rest = .ok r := by
      have h2 := ih h.2
      cases he : parse_values lit rest with
      | ok r => exact ⟨r, rfl⟩
      | error e => rw [he] at h2; exact Bool.noConfusion h2
    obtain ⟨k2, v2⟩ := kv
    simp only [parse_values, hu, hr]
    rfl

theorem parseSections_safe (lit : String → Option Value)
    (l : List (String × List (String × String)))
    (h : l.all (fun sec => sec.2.all (fun kv => coercionSafe kv.2)) = true) :
    (parseSections lit l).isOk = true := by
  induction l with
  | nil => rfl
  | cons sec rest ih =>
    simp only [List.all_cons, Bool.and_eq_true] at h
    have h1 := parse_values_safe lit sec.2 h.1
    obtain ⟨u, hu⟩ : ∃ u, parse_values lit sec.2 = .ok u := by
      cases he : parse_values lit sec.2 with
      | ok u => exact ⟨u, rfl⟩
      | error e => rw [he] at h1; exact Bool.noConfusion h1
    obtain ⟨r, hr⟩ : ∃ r, parseSections lit rest = .ok r := by
      have h2 := ih h.2
      cases he : parseSections lit rest with
      | ok r => exact ⟨r, rfl⟩
      | error e => rw [he] at h2; exact Bool.noConfusion h2
    obtain ⟨k2, v2⟩ := sec
    simp only [parseSections, hu, hr]
    rfl

theorem dictLookup_mem {α : Type} (m : Smap α) (key : String) (v : α)
    (h : dictLookup m key = some v) : (key, v) ∈ m := by
  induction m with
  | nil => simp [dictLookup] at h
  | cons kv rest ih =>
    obtain ⟨k0, v0⟩ := kv
    by_cases hk : k0 = key
    · subst hk
      simp [dictLookup] at h
      obtain rfl := h
      exact List.mem_cons_self _ _
    · simp only [dictLookup, if_neg hk] at h
      exact List.mem_cons_of_mem _ (ih h)

theorem dictLookupSection_safe (sections : List (String × List (String × String)))
    (name : String) (h : sectionsSafe sections = true) :
    ((dictLookup sections name).getD []).all (fun kv => coercionSafe kv.2) = true := by
  cases hx : dictLookup sections name with
  | none => rfl
  | some sec =>
    have hmem := dictLookup_mem sections name sec hx
    rw [sectionsSafe, List.all_eq_true] at h
    simpa using h _ hmem

/-- C7 counterexample: the INI value `x = 1.2.3` parses structurally, is not
a structural literal, boolean or guarded integer, passes the float guard
(all characters besides `.` are digits) but is not a valid float literal, so
`float("1.2.3")` raises a `ValueError` that `load` does not catch — `load`
raises an exception other than NotFound/FormatError instead of returning a
document. -/
theorem c7_counterexample :
    load (fun _ => none) "client" (.parsed [("general", [("x", "1.2.3")])])
      = .error .valueError := rfl

/-- C7 (amended): `load` fails with NotFound when the file is absent and
FormatError when the section syntax is invalid; for every parsed input whose
value strings are coercion-safe (each string passing a numeric guard really
converts — true of every well-formed numeric and every ordinary string, but
not of guard-passing junk such as "1.2.3" or "--5"), it returns a document
without raising, coercing each value string by the ordered rules: structural
literal attempt for strings starting with a bracket, then boolean tokens
(which outrank integers: "1" is True), then integer, then float, then raw
string, with a failed literal parse falling through to the later rules. -/
theorem c7_load_behavior :
    (∀ (lit : String → Option Value) (p : String), load lit p .absent = .error .notFound)
    ∧ (∀ (lit : String → Option Value) (p : String), load lit p .malformed = .error .formatError)
    ∧ (∀ (lit : String → Option Value) (p : String)
        (sections : List (String × List (String × String))),
        sectionsSafe sections = true → (load lit p (.parsed sections)).isOk = true)
    ∧ (∀ lit : String → Option Value,
        parseValue lit "yes" = .ok (.vBool true)
        ∧ parseValue lit "1" = .ok (.vBool true)
        ∧ parseValue lit "-42" = .ok (.vInt (-42))
        ∧ parseValue lit "3.14" = .ok (.vFloat "3.14")
        ∧ parseValue lit "hello" = .ok (.vStr "hello"))
    ∧ (∀ (lit : String → Option Value) (v : Value),
        lit "[1, 2]" = some v → parseValue lit "[1, 2]" = .ok v)
    ∧ parseValue (fun _ => none) "[1, 2]" = .ok (.vStr "[1, 2]") := by
  refine ⟨fun lit p => rfl, fun lit p => rfl, ?_, fun lit => ⟨rfl, rfl, rfl, rfl, rfl⟩, ?_, rfl⟩
  · intro lit p sections h
    have hg := dictLookupSection_safe sections "globals" h
    have hge := dictLookupSection_safe sections "general" h
    have hfilt : ((sections.filter (fun kv => kv.1 ≠ "globals" && kv.1 ≠ "general")).all
        (fun sec => sec.2.all (fun kv => coercionSafe kv.2))) = true := by
      rw [List.all_eq_true]
      intro x hx
      rw [sectionsSafe, List.all_eq_true] at h
      exact h x (List.mem_of_mem_filter hx)
    have h1 := parse_values_safe lit _ hg
    obtain ⟨g, hgv⟩ : ∃ g, parse_values lit ((dictLookup sections "globals").getD []) = .ok g := by
      cases he : parse_values lit ((dictLookup sections "globals").getD []) with
      | ok g => exact ⟨g, rfl⟩
      | error e => rw [he] at h1; exact Bool.noConfusion h1
    have h2 := parse_values_safe lit _ hge
    obtain ⟨ge, hgev⟩ : ∃ ge, parse_values lit ((dictLookup sections "general").getD []) = .ok ge := by
      cases he : parse_values lit ((dictLookup sections "general").getD []) with
      | ok ge => exact ⟨ge, rfl⟩
      | error e => rw [he] at h2; exact Bool.noConfusion h2
    have h3 := parseSections_safe lit _ hfilt
    obtain ⟨ts, hts⟩ : ∃ ts, parseSections lit
        (sections.filter (fun kv => kv.1 ≠ "globals" && kv.1 ≠ "general")) = .ok ts := by
      cases he : parseSections lit
          (sections.filter (fun kv => kv.1 ≠ "globals" && kv.1 ≠ "general")) with
      | ok ts => exact ⟨ts, rfl⟩
      | error e => rw [he] at h3; exact Bool.noConfusion h3
    simp only [load, from_configparser, hgv, hgev, hts]
    rfl
  · intro lit v h
    have hs : startsStructuralB "[1, 2]" = true := by decide
    simp only [parseValue, hs, if_true, h]

/-- C7 witness: the three load outcomes and the structural rule at concrete
inputs. -/
theorem c7_load_behavior_witness :
    load (fun _ => none) "p" .absent = .error .notFound
    ∧ (load (fun _ => none) "p"
        (.parsed [("general", [("b", "yes"), ("i", "-7"), ("f", "2.5"), ("s", "hi")])])).isOk
      = true
    ∧ parseValue (fun s => some (.vStr s)) "[1, 2]" = .ok (.vStr "[1, 2]") :=
  ⟨c7_load_behavior.1 (fun _ => none) "p",
   c7_load_behavior.2.2.1 (fun _ => none) "p" _ (by decide),
   c7_load_behavior.2.2.2.2.1 (fun s => some (.vStr s)) (.vStr "[1, 2]") rfl⟩


/-- The code-side layer chain: the nested first-match-wins structure of
`_determine_variable_source`, abstracted over the six layer candidates. -/
def layerChainCode (o1 o2 o3 o4 o5 o6 : Option Value) : String × Option Value :=
  match o1 with
  | some v => ("user_set", some v)
  | none =>
    match o2 with
    | some v => ("template", some v)
    | none =>
      match o3 with
      | some v => ("default", some v)
      | none =>
        match o4 with
        | some v => ("general", some v)
        | none =>
          match o5 with
          | some v => ("save_global", some v)
          | none =>
            match o6 with
            | some v => ("global", some v)
            | none => ("unset", none)

/-- The claim-side layer chain: first-match-wins as an ordered if-chain over
the same six layer candidates. -/
def layerChainSpec (o1 o2 o3 o4 o5 o6 : Option Value) : String × Option Value :=
  if o1.isSome then ("user_set", o1)
  else if o2.isSome then ("template", o2)
  else if o3.isSome then ("default", o3)
  else if o4.isSome then ("general", o4)
  else if o5.isSome then ("save_global", o5)
  else if o6.isSome then ("global", o6)
  else ("unset", none)

theorem layerChain_eq (o1 o2 o3 o4 o5 o6 : Option Value) :
    layerChainCode o1 o2 o3 o4 o5 o6 = layerChainSpec o1 o2 o3 o4 o5 o6 := by
  cases o1 <;> cases o2 <;> cases o3 <;> cases o4 <;> cases o5 <;> cases o6 <;> rfl

/-- Layer 2 of the resolver: the code's elif-shaped section selection equals
looking the name up in the claim's "normalized key first, legacy key as
fallback" section. -/
theorem shellTemplateHit_eq (var_name template_path : String)
    (save_data : Option SaveFileData) :
    (match save_data with
     | none => (none : Option Value)
     | some sd =>
       match dictLookup sd.template_sections (normalizeShellTemplatePath template_path) with
       | some template_vars => dictLookup template_vars var_name
       | none =>
         match dictLookup sd.template_sections template_path with
         | some template_vars => dictLookup template_vars var_name
         | none => none)
    = dictLookup (match save_data with
        | none => ([] : Smap Value)
        | some sd =>
          match dictLookup sd.template_sections (normalizeShellTemplatePath template_path) with
          | some sec => sec
          | none => (dictLookup sd.template_sections template_path).getD []) var_name := by
  cases save_data with
  | none => rfl
  | some sd =>
    show (match dictLookup sd.template_sections (normalizeShellTemplatePath template_path) with
          | some template_vars => dictLookup template_vars var_name
          | none =>
            match dictLookup sd.template_sections template_path with
            | some template_vars => dictLookup template_vars var_name
            | none => none)
      = dictLookup
          (match dictLookup sd.template_sections (normalizeShellTemplatePath template_path) with
           | some sec => sec
           | none => (dictLookup sd.template_sections template_path).getD []) var_name
    cases dictLookup sd.template_sections (normalizeShellTemplatePath template_path) with
    | some sec => rfl
    | none =>
      cases dictLookup sd.template_sections template_path with
      | some sec => rfl
      | none => rfl

/-- `_determine_variable_source` is the code-side layer chain applied to its
six layer candidates. -/
theorem determine_as_chain (var_name template_path : String)
    (template_def current_template : Option TemplateDefinition)
    (session_vars : Smap Value) (save_data : Option SaveFileData)
    (global_vars : Smap Value) :
    determine_variable_source var_name template_path template_def current_template
        session_vars save_data global_vars
      = layerChainCode (dictLookup session_vars var_name)
          (match save_data with
           | none => (none : Option Value)
           | some sd =>
             match dictLookup sd.template_sections (normalizeShellTemplatePath template_path) with
             | some template_vars => dictLookup template_vars var_name
             | none =>
               match dictLookup sd.template_sections template_path with
               | some template_vars => dictLookup template_vars var_name
               | none => none)
          (match (match template_def with
                  | some t => some t
                  | none => current_template) with
           | none => (none : Option Value)
           | some t =>
             match dictLookup t.vars var_name with
             | some vd => vd.default
             | none => none)
          (match save_data with
           | none => (none : Option Value)
           | some sd => dictLookup sd.general_variables var_name)
          (match save_data with
           | none => (none : Option Value)
           | some sd => dictLookup sd.globals_variables var_name)
          (dictLookup global_vars var_name) := rfl

/-- `resolveSpec` is the claim-side layer chain applied to the same
candidates, with layer 2 in its section-lookup form. -/
theorem resolveSpec_as_chain (var_name template_path : String)
    (active_template : Option TemplateDefinition)
    (session_vars : Smap Value) (save_data : Option SaveFileData)
    (global_vars : Smap Value) :
    resolveSpec var_name template_path active_template session_vars save_data global_vars
      = layerChainSpec (dictLookup session_vars var_name)
          (dictLookup (match save_data with
            | none => ([] : Smap Value)
            | some sd =>
              match dictLookup sd.template_sections (normalizeShellTemplatePath template_path) with
              | some sec => sec
              | none => (dictLookup sd.template_sections template_path).getD []) var_name)
          (match active_template with
           | none => (none : Option Value)
           | some t =>
             match dictLookup t.vars var_name with
             | some vd => vd.default
             | none => none)
          (match save_data with
           | none => (none : Option Value)
           | some sd => dictLookup sd.general_variables var_name)
          (match save_data with
           | none => (none : Option Value)
           | some sd => dictLookup sd.globals_variables var_name)
          (dictLookup global_vars var_name) := rfl

/-- C1: the resolver returns the value and provenance of the first matching
layer in the order user_set, template (save-file section for this template,
normalized key selected before the legacy extension-included key), default,
general, save_global, global, unset — proved as equality with `resolveSpec`,
the resolver written from the claim's seven-step list; and concretely a
template-declared default outranks values present in both the general and
globals sections of the save file. -/
theorem c1_resolver_precedence :
    (∀ (var_name template_path : String)
        (template_def current_template : Option TemplateDefinition)
        (session_vars : Smap Value) (save_data : Option SaveFileData)
        (global_vars : Smap Value),
      determine_variable_source var_name template_path template_def current_template
          session_vars save_data global_vars
        = resolveSpec var_name template_path
            (match template_def with
             | some t => some t
             | none => current_template)
            session_vars save_data global_vars)
    ∧ determine_variable_source "x" "t"
        (some { vars := [("x", { default := some (.vInt 7) })] }) none []
        (some { path := "p", globals_variables := [("x", .vInt 2)],
                general_variables := [("x", .vInt 1)], template_sections := [] })
        []
      = ("default", some (.vInt 7)) := by
  constructor
  · intro var_name template_path template_def current_template session_vars save_data global_vars
    rw [determine_as_chain, shellTemplateHit_eq var_name template_path save_data,
      layerChain_eq, resolveSpec_as_chain]
  · rfl

end Flowy
